import Mathlib

/-!
Verification of the goals-v1 personal goal-tracking application.

This file shallowly embeds the non-presentational core of the repository:
the freeform conversational extraction flow (src/lib/openai.ts
`processConversation`, src/components/dashboard/FreeformAIChat.tsx), the
guided 12-step goal-creation flow (AIGoalCreation.tsx), the goal detail and
list views (GoalDetails.tsx, GoalsList.tsx) and the notification poller
(NotificationBell.tsx), together with theorems about their behaviour.

Modelling conventions:
- Dates are epoch milliseconds as `Nat` (all dates handled by the app are
  after 1970 and `Date.getTime()` is a nonnegative integer there).
- JavaScript string primitives used by the code (`toLowerCase`, `trim`,
  `split` on a comma) are re-implemented over the character list of a `String`
  by structural recursion so that concrete inputs evaluate inside proofs;
  the tags and separators involved are plain ASCII.
- `crypto.randomUUID()` is modelled by an identifier supply
  `ids : Nat -> String` consumed at successive indices in the order the
  source performs the calls.
- Fallible persistence writes (`updateDoc`) are modelled by an explicit
  `WriteOutcome` parameter: `failure` corresponds to the awaited promise
  rejecting, which transfers control to the `catch` block of the source.
-/

namespace GoalsV1

/-- JS `String.prototype.toLowerCase` on a single character, restricted to
ASCII letters (the only characters the seven domain tags contain). -/
def lowerChar (c : Char) : Char :=
  if 65 ≤ c.toNat ∧ c.toNat ≤ 90 then Char.ofNat (c.toNat + 32) else c

/-- JS `String.prototype.toLowerCase` (ASCII letters). -/
def jsToLower (s : String) : String := ⟨s.data.map lowerChar⟩

/-- Drop leading whitespace characters from a character list. -/
def dropLeadingWs : List Char → List Char
  | [] => []
  | c :: cs => if c.isWhitespace then dropLeadingWs cs else c :: cs

/-- JS `String.prototype.trim`: remove leading and trailing whitespace. -/
def jsTrim (s : String) : String :=
  ⟨(dropLeadingWs ((dropLeadingWs s.data).reverse)).reverse⟩

/-- One step of splitting a character list on commas (used via `foldr`). -/
def splitCommaAux (c : Char) (acc : List (List Char)) : List (List Char) :=
  match acc with
  | [] => [[c]]
  | cur :: rest => if c = ',' then [] :: cur :: rest else (c :: cur) :: rest

/-- JS `String.prototype.split` with separator `","`: `"" ↦ [""]`, separators kept out. -/
def jsSplitComma (s : String) : List String :=
  (s.data.foldr splitCommaAux [[]]).map fun cs => ⟨cs⟩

/-- JS `x || d` for an optional string `x`: the default `d` is taken when the
field is `undefined` or the empty string (both falsy in JS). -/
def jsOrDefault (o : Option String) (d : String) : String :=
  match o with
  | none => d
  | some s => if s = "" then d else s

/-- Map a function receiving a running index over a list, starting the index
at `start`.  Models a `.map` whose body calls `crypto.randomUUID()`: the
supply index advances once per element, in element order. -/
def mapWithIds (f : Nat → α → β) : Nat → List α → List β
  | _, [] => []
  | k, a :: as => f k a :: mapWithIds f (k + 1) as

theorem mapWithIds_length (f : Nat → α → β) (s : Nat) (l : List α) :
    (mapWithIds f s l).length = l.length := by
  induction l generalizing s with
  | nil => rfl
  | cons a as ih => simp [mapWithIds, ih]

theorem mapWithIds_get (f : Nat → α → β) (s : Nat) (l : List α) (i : Nat)
    (h : i < l.length) (h2 : i < (mapWithIds f s l).length) :
    (mapWithIds f s l).get ⟨i, h2⟩ = f (s + i) (l.get ⟨i, h⟩) := by
  induction l generalizing s i with
  | nil => exact absurd h (Nat.not_lt_zero i)
  | cons a as ih =>
    cases i with
    | zero => simp [mapWithIds]
    | succ j =>
      have hj : j < as.length := Nat.lt_of_succ_lt_succ h
      have hj2 : j < (mapWithIds f (s + 1) as).length := by
        rw [mapWithIds_length]; exact hj
      have step : (mapWithIds f s (a :: as)).get ⟨j + 1, h2⟩ =
          (mapWithIds f (s + 1) as).get ⟨j, hj2⟩ := rfl
      rw [step, ih (s + 1) j hj hj2]
      have harith : s + 1 + j = s + (j + 1) := by omega
      rw [harith]
      rfl

/-! ## Data model (src/types/index.ts) -/

/-- Goal lifecycle status. -/
inductive GoalStatus
  | active
  | completed
  | paused
deriving DecidableEq, Repr

/-- Metric value kind (number / boolean / rating). -/
inductive MetricType
  | number
  | boolean
  | rating
deriving DecidableEq, Repr

/-- A metric value: the TS type is `number | boolean`. -/
inductive MetricValue
  | num (n : Int)
  | bool (b : Bool)
deriving DecidableEq, Repr

/-- A milestone of a goal. -/
structure Milestone where
  id : String
  title : String
  description : Option String
  targetDate : Nat
  completed : Bool
  completedDate : Option Nat
  frequency : Option String
deriving DecidableEq, Repr

/-- One `(date, value)` sample of a metric history. -/
structure HistoryEntry where
  date : Nat
  value : MetricValue
deriving DecidableEq, Repr

/-- A measurable indicator owned by a goal. -/
structure Metric where
  id : String
  name : String
  type : MetricType
  target : MetricValue
  current : MetricValue
  unit : Option String
  frequency : Option String
  history : List HistoryEntry
deriving DecidableEq, Repr

/-- A routine owned by a goal.  `frequency` is optional here because the
extraction flow may accumulate a routine whose frequency the JSON omitted;
the save transform defaults it. -/
structure Routine where
  id : String
  name : String
  description : Option String
  frequency : Option String
  steps : List String
  lastCompleted : Option Nat
  nextDue : Option Nat
deriving DecidableEq, Repr

/-- A periodic retrospective entry owned by a goal. -/
structure Reflection where
  id : String
  userId : String
  date : Nat
  type : String
  progress : String
  challenges : String
  insights : String
  nextSteps : String
  satisfaction : Int
deriving DecidableEq, Repr

/-- A persisted goal record. -/
structure Goal where
  id : String
  userId : String
  title : String
  description : String
  domain : String
  status : GoalStatus
  targetDate : Option Nat
  createdAt : Nat
  updatedAt : Nat
  milestones : List Milestone
  metrics : List Metric
  weeklyActions : List String
  dailyHabits : List String
  routines : List Routine
  resources : List String
  obstacles : List String
  successCriteria : List String
  reflections : List Reflection
deriving DecidableEq, Repr

/-! ## Freeform conversational extraction flow (src/lib/openai.ts) -/

/-- A milestone as it appears in the extraction JSON returned by the
completion endpoint (before ids and completion flags are attached). -/
structure ParsedMilestone where
  title : String
  description : Option String
  targetDate : Nat
  frequency : Option String
deriving DecidableEq, Repr

/-- A metric as it appears in the extraction JSON. -/
structure ParsedMetric where
  name : String
  type : MetricType
  target : MetricValue
  unit : Option String
  frequency : Option String
deriving DecidableEq, Repr

/-- A routine as it appears in the extraction JSON. -/
structure ParsedRoutine where
  name : String
  description : Option String
  frequency : Option String
  steps : List String
deriving DecidableEq, Repr

/-- The JSON object produced by the extraction call of `processConversation`
(schema of the EXTRACTION_PROMPT).  Every field may be absent. -/
structure ParsedData where
  title : Option String
  description : Option String
  domain : Option String
  targetDate : Option Nat
  milestones : Option (List ParsedMilestone)
  metrics : Option (List ParsedMetric)
  weeklyActions : Option (List String)
  dailyHabits : Option (List String)
  routines : Option (List ParsedRoutine)
  resources : Option (List String)
  obstacles : Option (List String)
  successCriteria : Option (List String)
deriving DecidableEq, Repr

/-- The `extractedData` object built by `processConversation` on a
successful JSON parse (openai.ts lines 149-188). -/
structure ExtractedData where
  title : Option String
  description : Option String
  domain : Option String
  targetDate : Option Nat
  status : GoalStatus
  milestones : List Milestone
  metrics : List Metric
  weeklyActions : List String
  dailyHabits : List String
  routines : List Routine
  resources : List String
  obstacles : List String
  successCriteria : List String
  reflections : List Reflection
deriving DecidableEq, Repr

/-- Transform of one parsed milestone (openai.ts lines 155-162):
fresh id, `completed: false`, frequency defaulted to `"once"`. -/
def transformMilestone (freshId : String) (m : ParsedMilestone) : Milestone :=
  { id := freshId, title := m.title, description := m.description,
    targetDate := m.targetDate, completed := false, completedDate := none,
    frequency := some (jsOrDefault m.frequency "once") }

/-- Transform of one parsed metric (openai.ts lines 163-172):
fresh id, `current: 0`, empty history. -/
def transformMetric (freshId : String) (m : ParsedMetric) : Metric :=
  { id := freshId, name := m.name, type := m.type, target := m.target,
    current := .num 0, unit := m.unit, frequency := m.frequency,
    history := [] }

/-- Transform of one parsed routine (openai.ts lines 175-183). -/
def transformRoutine (freshId : String) (r : ParsedRoutine) : Routine :=
  { id := freshId, name := r.name, description := r.description,
    frequency := r.frequency, steps := r.steps,
    lastCompleted := none, nextDue := none }

/-- The `extractedData` transform of `processConversation` (openai.ts
lines 149-188): every collection field is `(parsedData.X || []).map ...`,
so an absent field becomes an EMPTY ARRAY, never `undefined`. -/
def transformExtractedData (p : ParsedData) (ids : Nat → String) : ExtractedData :=
  let pms := p.milestones.getD []
  let pmts := p.metrics.getD []
  let prts := p.routines.getD []
  { title := p.title, description := p.description, domain := p.domain,
    targetDate := p.targetDate, status := .active,
    milestones := mapWithIds (fun k m => transformMilestone (ids k) m) 0 pms,
    metrics := mapWithIds (fun k m => transformMetric (ids k) m) pms.length pmts,
    weeklyActions := p.weeklyActions.getD [],
    dailyHabits := p.dailyHabits.getD [],
    routines := mapWithIds (fun k r => transformRoutine (ids k) r)
      (pms.length + pmts.length) prts,
    resources := p.resources.getD [],
    obstacles := p.obstacles.getD [],
    successCriteria := p.successCriteria.getD [],
    reflections := [] }

/-- One required-field check of `processConversation` (openai.ts lines
190-194): JS `parsedData[field] && parsedData[field].trim() !== ""` (source uses single quotes).
An absent field and the empty string are falsy. -/
def requiredFieldOk : Option String → Bool
  | none => false
  | some s => !(s == "") && !(jsTrim s == "")

/-- `conversationComplete` computed by `processConversation`: title,
description and domain must all pass `requiredFieldOk`. -/
def conversationComplete (p : ParsedData) : Bool :=
  requiredFieldOk p.title && requiredFieldOk p.description &&
    requiredFieldOk p.domain

/-- The accumulated `goalData` state of `FreeformAIChat` (a
`Partial<Goal>`). -/
structure PartialGoal where
  title : Option String
  description : Option String
  domain : Option String
  status : GoalStatus
  targetDate : Option Nat
  milestones : List Milestone
  metrics : List Metric
  weeklyActions : List String
  dailyHabits : List String
  routines : List Routine
  resources : List String
  obstacles : List String
  successCriteria : List String
  reflections : List Reflection
deriving DecidableEq, Repr

/-- The `setGoalData` merge of `FreeformAIChat.handleSendMessage`
(FreeformAIChat.tsx lines 1188-1200).  `none` models a failed JSON parse,
where `extractedData` is the empty object `\x7b\x7d`: the object spread adds
nothing and each `result.extractedData.X || prev.X` falls back to the
accumulated value.  On parse success every field key is present on
`extractedData`; in particular each collection field is an ARRAY, and a JS
array is truthy even when empty, so `ed.X || prev.X` always yields `ed.X`
and the scalar fields are overwritten by the spread. -/
def applyExtraction (prev : PartialGoal) (extracted : Option ExtractedData) :
    PartialGoal :=
  match extracted with
  | none => prev
  | some ed =>
    { title := ed.title, description := ed.description, domain := ed.domain,
      status := ed.status, targetDate := ed.targetDate,
      milestones := ed.milestones, metrics := ed.metrics,
      weeklyActions := ed.weeklyActions, dailyHabits := ed.dailyHabits,
      routines := ed.routines, resources := ed.resources,
      obstacles := ed.obstacles, successCriteria := ed.successCriteria,
      reflections := ed.reflections }

/-- The goal record assembled by `FreeformAIChat.handleSaveGoal`
(the `Omit` of `Goal` without id, userId, createdAt, updatedAt). -/
structure NewGoal where
  title : String
  description : String
  domain : String
  status : GoalStatus
  targetDate : Option Nat
  milestones : List Milestone
  metrics : List Metric
  weeklyActions : List String
  dailyHabits : List String
  routines : List Routine
  resources : List String
  obstacles : List String
  successCriteria : List String
  reflections : List Reflection
deriving DecidableEq, Repr

/-- Milestone save transform of `handleSaveGoal` (FreeformAIChat.tsx lines
1267-1274): fresh id, description defaulted, `completed: false`, no
completedDate key, frequency defaulted to `"once"`. -/
def saveMilestone (freshId : String) (m : Milestone) : Milestone :=
  { id := freshId, title := m.title,
    description := some (jsOrDefault m.description ""),
    targetDate := m.targetDate, completed := false, completedDate := none,
    frequency := some (jsOrDefault m.frequency "once") }

/-- Metric save transform of `handleSaveGoal` (lines 1275-1284): fresh id,
`current` reset to `false` for boolean metrics and `0` otherwise, empty
history. -/
def saveMetric (freshId : String) (m : Metric) : Metric :=
  { id := freshId, name := m.name, type := m.type, target := m.target,
    current := if m.type = .boolean then .bool false else .num 0,
    unit := some (jsOrDefault m.unit ""),
    frequency := some (jsOrDefault m.frequency "daily"),
    history := [] }

/-- Routine save transform of `handleSaveGoal` (lines 1287-1295). -/
def saveRoutine (freshId : String) (r : Routine) : Routine :=
  { id := freshId, name := r.name,
    description := some (jsOrDefault r.description ""),
    frequency := some (jsOrDefault r.frequency "daily"), steps := r.steps,
    lastCompleted := none, nextDue := none }

/-- `FreeformAIChat.handleSaveGoal` (lines 1260-1304): the final save
transform from the accumulated partial goal to the goal handed to
`onCreateGoal`.  The id supply is consumed in source call order: all
milestones first, then all metrics, then all routines. -/
def handleSaveGoal (gd : PartialGoal) (ids : Nat → String) : NewGoal :=
  let nm := gd.milestones.length
  let nk := gd.metrics.length
  { title := jsOrDefault gd.title "",
    description := jsOrDefault gd.description "",
    domain := jsOrDefault gd.domain "personal",
    status := .active,
    targetDate := gd.targetDate,
    milestones := mapWithIds (fun k m => saveMilestone (ids k) m) 0 gd.milestones,
    metrics := mapWithIds (fun k m => saveMetric (ids k) m) nm gd.metrics,
    weeklyActions := gd.weeklyActions,
    dailyHabits := gd.dailyHabits,
    routines := mapWithIds (fun k r => saveRoutine (ids k) r) (nm + nk) gd.routines,
    resources := gd.resources,
    obstacles := gd.obstacles,
    successCriteria := gd.successCriteria,
    reflections := [] }

/-! ## Guided goal-creation flow (AIGoalCreation.tsx) -/

/-- Chat message role tag. -/
inductive MessageRole
  | system
  | user
  | assistant
deriving DecidableEq, Repr

/-- An ephemeral conversation message. -/
structure ChatMessage where
  role : MessageRole
  content : String
deriving DecidableEq, Repr

/-- The seven fixed domain tags checked at guided-flow step 1
(AIGoalCreation.tsx line 842). -/
def domainList : List String :=
  ["work", "health", "financial", "family", "personal", "community", "home"]

/-- The corrective assistant message re-posed on a step-1 mismatch
(AIGoalCreation.tsx line 853). -/
def step1ErrorMessage : String :=
  "Please choose one of the following domains: work, health, financial, family, personal, community, or home."

/-- The part of the guided-flow component state that step 1 touches. -/
structure GuidedState where
  currentStep : Nat
  domain : Option String
  messages : List ChatMessage
deriving DecidableEq, Repr

/-- Guided-flow step-1 processing (`handleSendMessage` case 1, lines
839-856): the user message is appended, the lowercased input is matched
against the seven tags; on a match the domain is recorded, the AI reply is
appended and the step advances to 2; otherwise only the corrective message
is appended. -/
def handleStep1 (input aiResponse : String) (st : GuidedState) : GuidedState :=
  let st1 : GuidedState :=
    { st with messages := st.messages ++ [{ role := .user, content := input }] }
  let domain := jsToLower input
  if domain ∈ domainList then
    { st1 with domain := some domain,
               messages := st1.messages ++
                 [{ role := .assistant, content := aiResponse }],
               currentStep := 2 }
  else
    { st1 with messages := st1.messages ++
        [{ role := .assistant, content := step1ErrorMessage }] }

/-- Guided-flow step-5 milestone synthesis (`handleSendMessage` case 5,
lines 906-914): the answer is split on commas, each segment trimmed into a
milestone title, and each milestone receives the target date
`new Date(goalData.targetDate!.getTime() * 0.5)` — HALF THE EPOCH
MILLISECONDS of the goal target date (the `Date` constructor truncates the
fractional millisecond, hence division by 2). -/
def guidedStep5Milestones (input : String) (goalTargetDate : Nat)
    (ids : Nat → String) : List Milestone :=
  mapWithIds (fun k seg =>
    { id := ids k, title := jsTrim seg, description := some "",
      targetDate := goalTargetDate / 2,
      completed := false, completedDate := none,
      frequency := some "once" }) 0 (jsSplitComma input)

/-! ## Goal detail / list views (GoalDetails.tsx, GoalsList.tsx) -/

/-- Number of completed milestones in a list. -/
def countCompleted (ms : List Milestone) : Nat :=
  (ms.filter fun m => m.completed).length

/-- `getProgressPercentage` (GoalDetails.tsx lines 144-148 and GoalsList.tsx
lines 138-142, identical code):
`totalMilestones > 0 ? Math.round((completed / total) * 100) : 0`.
`Math.round` rounds half toward positive infinity, which on the rationals is
exactly the Mathlib `round`. -/
def getProgressPercentage (ms : List Milestone) : ℤ :=
  if 0 < ms.length then
    round (((countCompleted ms : ℚ) / (ms.length : ℚ)) * 100)
  else 0

/-- Outcome of an awaited `updateDoc` persistence write: `failure` means the
promise rejected and control jumped to the `catch` block. -/
inductive WriteOutcome
  | success
  | failure
deriving DecidableEq, Repr

/-- `GoalDetails.updateGoalStatus` (lines 57-69), local component state.
`setGoal` is executed AFTER `await updateDoc` inside the `try` block, so
when the write fails the local state is never touched; the `catch` block
only logs. -/
def updateGoalStatusLocal (w : WriteOutcome) (g : Goal) (status : GoalStatus) :
    Goal :=
  match w with
  | .success => { g with status := status }
  | .failure => g

/-- The `updatedMilestones` map shared by `GoalDetails.toggleMilestone`
(lines 74-76) and `GoalsList.handleToggleMilestone` (lines 110-116):
the milestone whose id matches gets the passed `completed` flag and a
`completedDate` of now (or `undefined` when un-completing); all others are
returned as-is. -/
def toggleMilestoneList (ms : List Milestone) (milestoneId : String)
    (completed : Bool) (now : Nat) : List Milestone :=
  ms.map fun m =>
    if m.id = milestoneId then
      { m with completed := completed,
               completedDate := if completed then some now else none }
    else m

/-- `GoalDetails.toggleMilestone` (lines 71-87), local component state:
`setGoal` runs only after a successful write. -/
def toggleMilestoneLocal (w : WriteOutcome) (g : Goal) (milestoneId : String)
    (completed : Bool) (now : Nat) : Goal :=
  match w with
  | .success => { g with milestones := toggleMilestoneList g.milestones milestoneId completed now }
  | .failure => g

/-- The goal document produced by a successful milestone-toggle write
(`updateDoc` with `milestones` and `updatedAt`, GoalDetails.tsx lines 79-82
and GoalsList.tsx lines 118-121). -/
def applyToggleMilestone (g : Goal) (milestoneId : String) (completed : Bool)
    (now : Nat) : Goal :=
  { g with milestones := toggleMilestoneList g.milestones milestoneId completed now,
           updatedAt := now }

/-- The `updatedMetrics` map of `GoalDetails.updateMetric` (lines 92-101):
the metric whose id matches gets `current := value` and one `(date, value)`
entry appended to its history; all others are returned as-is. -/
def updateMetricList (metrics : List Metric) (metricId : String)
    (v : MetricValue) (d : Nat) : List Metric :=
  metrics.map fun m =>
    if m.id = metricId then
      { m with current := v, history := m.history ++ [{ date := d, value := v }] }
    else m

/-- `GoalDetails.updateMetric` (lines 89-112), local component state:
`setGoal` with the updated metrics runs only after a successful write; a
rejected write jumps to the `catch` block, which only logs. -/
def updateMetricLocal (w : WriteOutcome) (g : Goal) (metricId : String)
    (v : MetricValue) (d : Nat) : Goal :=
  match w with
  | .success => { g with metrics := updateMetricList g.metrics metricId v d }
  | .failure => g

/-- The reflection payload handed to `GoalDetails.addReflection`
(the `Omit` of `Reflection` without id and userId). -/
structure ReflectionInput where
  date : Nat
  type : String
  progress : String
  challenges : String
  insights : String
  nextSteps : String
  satisfaction : Int
deriving DecidableEq, Repr

/-- The `newReflection` built by `GoalDetails.addReflection` (lines
117-121): a fresh id and the current user id are attached to the payload. -/
def mkReflection (freshId userId : String) (r : ReflectionInput) : Reflection :=
  { id := freshId, userId := userId, date := r.date, type := r.type,
    progress := r.progress, challenges := r.challenges,
    insights := r.insights, nextSteps := r.nextSteps,
    satisfaction := r.satisfaction }

/-- `GoalDetails.addReflection` (lines 114-134), local component state:
`updatedReflections` appends the new reflection, and `setGoal` with it runs
only after a successful write; a rejected write jumps to the `catch` block,
which only logs. -/
def addReflectionLocal (w : WriteOutcome) (g : Goal) (freshId userId : String)
    (r : ReflectionInput) : Goal :=
  match w with
  | .success =>
    { g with reflections := g.reflections ++ [mkReflection freshId userId r] }
  | .failure => g

/-! ## Notification poller (NotificationBell.tsx) -/

/-- Notice category. -/
inductive NotificationType
  | milestone
  | review
  | goal
deriving DecidableEq, Repr

/-- One recomputed notice. -/
structure NotificationItem where
  id : String
  type : NotificationType
  title : String
  message : String
  date : Nat
  read : Bool
deriving DecidableEq, Repr

/-- Seven days in milliseconds (`7 * 24 * 60 * 60 * 1000`). -/
def msPerWeek : Nat := 7 * 24 * 60 * 60 * 1000

/-- Upcoming-milestone notices of one goal (NotificationBell.tsx lines
41-54): incomplete milestones whose target date is at most `weekFromNow`.
`fmt` models `Date.toLocaleDateString`. -/
def milestoneNotices (fmt : Nat → String) (weekFromNow : Nat) (g : Goal) :
    List NotificationItem :=
  (g.milestones.filter fun m =>
      !m.completed && decide (m.targetDate ≤ weekFromNow)).map fun m =>
    { id := "milestone-" ++ m.id, type := .milestone,
      title := "Upcoming Milestone",
      message := "\"" ++ m.title ++ "\" for goal \"" ++ g.title ++
        "\" is due on " ++ fmt m.targetDate,
      date := m.targetDate, read := false }

/-- Review-needed notices of one goal (lines 57-70): emitted when the goal
has no reflection or its last reflection is more than seven days old. -/
def reviewNotices (now : Nat) (g : Goal) : List NotificationItem :=
  let lastReflection := g.reflections.getLast?
  let lastReviewTime := match lastReflection with
    | some r => r.date
    | none => 0
  if lastReflection.isNone ∨ lastReviewTime + msPerWeek < now then
    [{ id := "review-" ++ g.id, type := .review, title := "Review Needed",
       message := "It\x27s time for a weekly review of your goal \"" ++
         g.title ++ "\"",
       date := now, read := false }]
  else []

/-- Deadline-approaching notices of one goal (lines 73-84). -/
def goalNotices (fmt : Nat → String) (weekFromNow : Nat) (g : Goal) :
    List NotificationItem :=
  match g.targetDate with
  | some t =>
    if t ≤ weekFromNow then
      [{ id := "goal-" ++ g.id, type := .goal,
         title := "Goal Deadline Approaching",
         message := "Your goal \"" ++ g.title ++ "\" is due on " ++ fmt t,
         date := t, read := false }]
    else []
  | none => []

/-- `NotificationBell.checkNotifications` (lines 23-87) applied to the
fetched active-goal set: the three notice categories are collected in
source push order and then sorted descending by date. -/
def checkNotifications (fmt : Nat → String) (goals : List Goal) (now : Nat) :
    List NotificationItem :=
  ((goals.flatMap (milestoneNotices fmt (now + msPerWeek))) ++
   (goals.flatMap (reviewNotices now)) ++
   (goals.flatMap (goalNotices fmt (now + msPerWeek)))).mergeSort
    fun a b => decide (b.date ≤ a.date)

/-! ## Sample data used by witnesses and counterexamples -/

/-- A previously accumulated milestone. -/
def sampleMilestone : Milestone :=
  { id := "m-prev", title := "Prev milestone", description := none,
    targetDate := 1700000000000, completed := false, completedDate := none,
    frequency := some "once" }

/-- A metric with one history sample. -/
def sampleMetric : Metric :=
  { id := "mt1", name := "Weekly distance", type := .number,
    target := .num 40, current := .num 10, unit := some "km",
    frequency := some "weekly",
    history := [{ date := 1690000000000, value := .num 10 }] }

/-- A persisted goal. -/
def sampleGoal : Goal :=
  { id := "g1", userId := "u1", title := "Run a marathon",
    description := "Train and finish", domain := "health", status := .active,
    targetDate := some 1710000000000, createdAt := 1690000000000,
    updatedAt := 1690000000000, milestones := [sampleMilestone],
    metrics := [sampleMetric], weeklyActions := ["Long run"],
    dailyHabits := ["Stretch"], routines := [], resources := [],
    obstacles := [], successCriteria := ["Finish the race"],
    reflections := [] }

/-- Extraction output with title, description and domain present. -/
def parsedRun5k : ParsedData :=
  { title := some "Run 5k", description := some "x", domain := some "health",
    targetDate := none, milestones := none, metrics := none,
    weeklyActions := none, dailyHabits := none, routines := none,
    resources := none, obstacles := none, successCriteria := none }

/-- The same extraction output without the domain field. -/
def parsedRun5kNoDomain : ParsedData := { parsedRun5k with domain := none }

/-! ## Theorems -/

theorem jsTrim_of_empty : jsTrim "" = "" := rfl

theorem requiredFieldOk_iff (o : Option String) :
    requiredFieldOk o = true ↔ ∃ s, o = some s ∧ jsTrim s ≠ "" := by
  cases o with
  | none => simp [requiredFieldOk]
  | some s =>
    by_cases hs : s = ""
    · subst hs
      simp [requiredFieldOk, jsTrim_of_empty]
    · simp [requiredFieldOk, hs]

/-- C2: `processConversation` declares the conversation complete exactly
when title, description and domain are all present and non-blank after
trimming; the sample extraction output with all three fields yields `true`
and the same output without its domain field yields `false`. -/
theorem conversation_complete_iff :
    (∀ p : ParsedData, conversationComplete p = true ↔
      ((∃ s, p.title = some s ∧ jsTrim s ≠ "") ∧
       (∃ s, p.description = some s ∧ jsTrim s ≠ "") ∧
       (∃ s, p.domain = some s ∧ jsTrim s ≠ ""))) ∧
    conversationComplete parsedRun5k = true ∧
    conversationComplete parsedRun5kNoDomain = false := by
  refine ⟨fun p => ?_, by decide, by decide⟩
  simp [conversationComplete, Bool.and_eq_true, requiredFieldOk_iff, and_assoc]

/-- C4: at guided-flow step 1 the flow advances to step 2 and records the
lowercased input as the domain exactly when the lowercased input is one of
the seven domain tags; for any other input the step index stays at 1, the
domain is unchanged, and the corrective step-1 message is appended after the
user message. -/
theorem guided_step1_domain_gate (input aiResponse : String)
    (st : GuidedState) (h : st.currentStep = 1) :
    ((jsToLower input ∈ domainList) →
      (handleStep1 input aiResponse st).currentStep = 2 ∧
      (handleStep1 input aiResponse st).domain = some (jsToLower input)) ∧
    ((jsToLower input ∉ domainList) →
      (handleStep1 input aiResponse st).currentStep = 1 ∧
      (handleStep1 input aiResponse st).domain = st.domain ∧
      (handleStep1 input aiResponse st).messages =
        st.messages ++ [{ role := .user, content := input },
                        { role := .assistant, content := step1ErrorMessage }]) := by
  by_cases hm : jsToLower input ∈ domainList
  · refine ⟨fun _ => ?_, fun hn => absurd hm hn⟩
    simp [handleStep1, hm]
  · refine ⟨fun hy => absurd hy hm, fun _ => ?_⟩
    simp [handleStep1, hm, h]

/-- C4 witness: the input HEALTH advances an initial step-1 state to step 2
and records the domain health. -/
theorem guided_step1_domain_gate_witness :
    (handleStep1 "HEALTH" "ok" { currentStep := 1, domain := none, messages := [] }).currentStep = 2 ∧
    (handleStep1 "HEALTH" "ok" { currentStep := 1, domain := none, messages := [] }).domain = some "health" := by
  have h := guided_step1_domain_gate "HEALTH" "ok"
    { currentStep := 1, domain := none, messages := [] } rfl
  have hm : jsToLower "HEALTH" ∈ domainList := by decide
  refine ⟨(h.1 hm).1, ?_⟩
  rw [(h.1 hm).2]
  decide

/-- A completed milestone for the progress-percentage example. -/
def milestoneDone : Milestone :=
  { id := "c1", title := "First checkpoint", description := none,
    targetDate := 100, completed := true, completedDate := some 50,
    frequency := some "once" }

/-- An incomplete milestone for the progress-percentage example. -/
def milestoneTodoA : Milestone :=
  { id := "c2", title := "Second checkpoint", description := none,
    targetDate := 200, completed := false, completedDate := none,
    frequency := some "once" }

/-- Another incomplete milestone for the progress-percentage example. -/
def milestoneTodoB : Milestone :=
  { milestoneTodoA with
    id := "c3"
    title := "Third checkpoint"
    targetDate := 300 }

/-- C6: the displayed progress percentage is the completed-milestone count
divided by the total, times 100, rounded to the nearest integer, and is 0
for a goal with no milestones; with 3 milestones of which 1 is completed it
is 33. -/
theorem progress_percentage_spec :
    (∀ ms : List Milestone,
      getProgressPercentage ms =
        if ms.length = 0 then 0
        else round ((100 * (countCompleted ms : ℚ)) / (ms.length : ℚ))) ∧
    getProgressPercentage [] = 0 ∧
    getProgressPercentage [milestoneDone, milestoneTodoA, milestoneTodoB] = 33 := by
  refine ⟨fun ms => ?_, rfl, ?_⟩
  · unfold getProgressPercentage
    rcases Nat.eq_zero_or_pos ms.length with h | h
    · simp [h]
    · rw [if_pos h, if_neg (Nat.pos_iff_ne_zero.mp h)]
      congr 1
      ring
  · have hc : countCompleted [milestoneDone, milestoneTodoA, milestoneTodoB] = 1 := by
      decide
    unfold getProgressPercentage
    rw [hc]
    norm_num [round_eq]

/-- C7: updating a metric value appends exactly one `(date, value)` entry to
that metric history — the new history is the old history followed by the
single new sample — and sets the current value to the new value; the length
of the metric list is preserved. -/
theorem metric_update_appends_history (metrics : List Metric) (i : Nat)
    (hi : i < metrics.length) (v : MetricValue) (d : Nat) :
    (updateMetricList metrics (metrics.get ⟨i, hi⟩).id v d).length = metrics.length ∧
    ∃ h2 : i < (updateMetricList metrics (metrics.get ⟨i, hi⟩).id v d).length,
      (updateMetricList metrics (metrics.get ⟨i, hi⟩).id v d).get ⟨i, h2⟩ =
        { metrics.get ⟨i, hi⟩ with
            current := v
            history := (metrics.get ⟨i, hi⟩).history ++ [{ date := d, value := v }] } := by
  have hlen : (updateMetricList metrics (metrics.get ⟨i, hi⟩).id v d).length = metrics.length := by
    simp [updateMetricList]
  refine ⟨hlen, by rw [hlen]; exact hi, ?_⟩
  simp [updateMetricList, List.get_eq_getElem, List.getElem_map]

/-- C7 witness: updating the sample metric appends the new sample. -/
theorem metric_update_appends_history_witness :
    (updateMetricList [sampleMetric] (([sampleMetric] : List Metric).get ⟨0, by decide⟩).id (.num 12) 5).length = 1 ∧
    ∃ h2 : 0 < (updateMetricList [sampleMetric] (([sampleMetric] : List Metric).get ⟨0, by decide⟩).id (.num 12) 5).length,
      (updateMetricList [sampleMetric] (([sampleMetric] : List Metric).get ⟨0, by decide⟩).id (.num 12) 5).get ⟨0, h2⟩ =
        { ([sampleMetric] : List Metric).get ⟨0, by decide⟩ with
            current := MetricValue.num 12
            history := (([sampleMetric] : List Metric).get ⟨0, by decide⟩).history ++ [{ date := 5, value := MetricValue.num 12 }] } :=
  metric_update_appends_history [sampleMetric] 0 (by decide) (.num 12) 5

/-- An accumulated partial goal holding one milestone from an earlier
extraction turn. -/
def samplePrev : PartialGoal :=
  { title := some "Run 5k", description := some "x",
    domain := some "health", status := .active, targetDate := none,
    milestones := [sampleMilestone], metrics := [], weeklyActions := [],
    dailyHabits := [], routines := [], resources := [], obstacles := [],
    successCriteria := [], reflections := [] }

/-- C1 counterexample: a successful parse whose JSON has NO milestones field
still replaces the accumulated milestones with the empty array — the claim
says the previously accumulated milestone should be left intact, but in JS
an empty array is truthy, so `ed.milestones || prev.milestones` yields the
empty transformed array. -/
theorem freeform_merge_wipes_accumulated_milestones :
    (applyExtraction samplePrev
        (some (transformExtractedData parsedRun5k (fun _ => "fresh")))).milestones = [] ∧
    samplePrev.milestones = [sampleMilestone] ∧
    parsedRun5k.milestones = none := by
  exact ⟨rfl, rfl, rfl⟩

/-- C1 (amended): after a successful JSON parse every collection field of
the accumulated goal is replaced by the transformed response array
unconditionally — an absent or empty response field yields an empty array
that also replaces — and the accumulated values survive only when the JSON
parse fails (extraction skipped, `extractedData` is the empty object). -/
theorem freeform_merge_last_write_wins (prev : PartialGoal) (p : ParsedData)
    (ids : Nat → String) :
    ((applyExtraction prev (some (transformExtractedData p ids))).milestones =
      (transformExtractedData p ids).milestones ∧
     (applyExtraction prev (some (transformExtractedData p ids))).metrics =
      (transformExtractedData p ids).metrics ∧
     (applyExtraction prev (some (transformExtractedData p ids))).weeklyActions =
      (transformExtractedData p ids).weeklyActions ∧
     (applyExtraction prev (some (transformExtractedData p ids))).dailyHabits =
      (transformExtractedData p ids).dailyHabits ∧
     (applyExtraction prev (some (transformExtractedData p ids))).routines =
      (transformExtractedData p ids).routines ∧
     (applyExtraction prev (some (transformExtractedData p ids))).resources =
      (transformExtractedData p ids).resources ∧
     (applyExtraction prev (some (transformExtractedData p ids))).obstacles =
      (transformExtractedData p ids).obstacles ∧
     (applyExtraction prev (some (transformExtractedData p ids))).successCriteria =
      (transformExtractedData p ids).successCriteria) ∧
    (p.milestones = none →
      (applyExtraction prev (some (transformExtractedData p ids))).milestones = []) ∧
    (p.weeklyActions = none →
      (applyExtraction prev (some (transformExtractedData p ids))).weeklyActions = []) ∧
    applyExtraction prev none = prev := by
  refine ⟨⟨rfl, rfl, rfl, rfl, rfl, rfl, rfl, rfl⟩, fun hm => ?_, fun hw => ?_, rfl⟩
  · simp [applyExtraction, transformExtractedData, hm, mapWithIds]
  · simp [applyExtraction, transformExtractedData, hw]

/-- C1 witness: applied to the concrete accumulated state and a parse whose
milestones and weekly actions are absent. -/
theorem freeform_merge_last_write_wins_witness :
    (applyExtraction samplePrev
        (some (transformExtractedData parsedRun5k (fun _ => "fresh")))).milestones = [] ∧
    (applyExtraction samplePrev
        (some (transformExtractedData parsedRun5k (fun _ => "fresh")))).weeklyActions = [] := by
  have h := freeform_merge_last_write_wins samplePrev parsedRun5k (fun _ => "fresh")
  exact ⟨h.2.1 rfl, h.2.2.1 rfl⟩

/-- C3: evaluation of the guided step-5 milestone synthesis at a concrete
failing input.  With the goal target date T = 1710000000000 ms (2024-03-09)
recorded at step 4 and current time N = 1700000000000 ms (2023-11-14), the
code assigns the synthesized milestone the target date
`new Date(T.getTime() * 0.5)` = 855000000000 ms (early 1997) — a date long
BEFORE both N and T — whereas the specified heuristic N + 0.5 * (T - N)
gives 1705000000000 ms.  The current time N does not occur in the
computation at all. -/
theorem guided_milestone_target_date_bug :
    ((guidedStep5Milestones "Finish draft" 1710000000000 (fun _ => "m1")).map
        fun m => m.targetDate) = [855000000000] ∧
    855000000000 < 1700000000000 ∧
    (855000000000 : Nat) ≠ 1700000000000 + (1710000000000 - 1700000000000) / 2 := by
  exact ⟨by decide, by decide, by decide⟩

/-- C5 counterexample: a failed persistence write during a status change
leaves the local goal state at its old status — the mutation is NOT
reflected locally, contradicting the claim that the local update happens
independently of persistence success. -/
theorem status_update_not_optimistic :
    updateGoalStatusLocal .failure sampleGoal .completed = sampleGoal ∧
    sampleGoal.status = .active ∧
    GoalStatus.active ≠ GoalStatus.completed := by
  exact ⟨rfl, rfl, by decide⟩

/-- C5 (amended): goal-detail mutations — status change, milestone toggle,
metric value update and reflection append — are NOT optimistic: the local
goal state is updated only after the persistence write succeeds; when the
write fails the error is logged and for each of the four mutations the
local state is left unchanged, so the local state does not reflect the
mutation (and there is nothing to roll back). -/
theorem mutations_follow_persistence (g : Goal) (s : GoalStatus)
    (milestoneId : String) (c : Bool) (now : Nat) (metricId : String)
    (v : MetricValue) (freshId userId : String) (r : ReflectionInput) :
    (updateGoalStatusLocal .success g s).status = s ∧
    updateGoalStatusLocal .failure g s = g ∧
    (toggleMilestoneLocal .success g milestoneId c now).milestones =
      toggleMilestoneList g.milestones milestoneId c now ∧
    toggleMilestoneLocal .failure g milestoneId c now = g ∧
    (updateMetricLocal .success g metricId v now).metrics =
      updateMetricList g.metrics metricId v now ∧
    updateMetricLocal .failure g metricId v now = g ∧
    (addReflectionLocal .success g freshId userId r).reflections =
      g.reflections ++ [mkReflection freshId userId r] ∧
    addReflectionLocal .failure g freshId userId r = g := by
  exact ⟨rfl, rfl, rfl, rfl, rfl, rfl, rfl, rfl⟩

/-- C8: on each poll, every incomplete milestone of a goal in the
active-goal set whose target date is due within seven days of the poll time
yields an upcoming-milestone notice in the recomputed list.  (The code in
fact also notices overdue milestones, since the filter has no lower bound;
the claim only asserts containment.) -/
theorem upcoming_milestone_notice_present (fmt : Nat → String)
    (goals : List Goal) (now : Nat) (g : Goal) (m : Milestone)
    (hg : g ∈ goals) (hm : m ∈ g.milestones) (hc : m.completed = false)
    (h1 : now ≤ m.targetDate) (h2 : m.targetDate ≤ now + msPerWeek) :
    ({ id := "milestone-" ++ m.id, type := .milestone,
       title := "Upcoming Milestone",
       message := "\"" ++ m.title ++ "\" for goal \"" ++ g.title ++
         "\" is due on " ++ fmt m.targetDate,
       date := m.targetDate, read := false } : NotificationItem) ∈
      checkNotifications fmt goals now := by
  unfold checkNotifications
  rw [List.mem_mergeSort]
  refine List.mem_append.mpr (Or.inl (List.mem_append.mpr (Or.inl ?_)))
  refine List.mem_flatMap.mpr ⟨g, hg, ?_⟩
  unfold milestoneNotices
  refine List.mem_map.mpr ⟨m, List.mem_filter.mpr ⟨hm, ?_⟩, rfl⟩
  simp [hc, h2]

/-- An incomplete milestone due 100000000 ms after the sample poll time. -/
def sampleUpcomingMilestone : Milestone :=
  { id := "mu1", title := "Taper week", description := none,
    targetDate := 1700100000000, completed := false, completedDate := none,
    frequency := some "once" }

/-- An active goal holding the upcoming milestone. -/
def sampleActiveGoal : Goal :=
  { sampleGoal with milestones := [sampleUpcomingMilestone] }

/-- C8 witness: the upcoming-milestone notice of the sample goal is in the
recomputed list at poll time 1700000000000. -/
theorem upcoming_milestone_notice_present_witness :
    ({ id := "milestone-" ++ sampleUpcomingMilestone.id, type := .milestone,
       title := "Upcoming Milestone",
       message := "\"" ++ sampleUpcomingMilestone.title ++ "\" for goal \"" ++
         sampleActiveGoal.title ++ "\" is due on " ++ "d",
       date := sampleUpcomingMilestone.targetDate, read := false } : NotificationItem) ∈
      checkNotifications (fun _ => "d") [sampleActiveGoal] 1700000000000 :=
  upcoming_milestone_notice_present (fun _ => "d") [sampleActiveGoal]
    1700000000000 sampleActiveGoal sampleUpcomingMilestone
    (List.mem_singleton.mpr rfl) (List.mem_singleton.mpr rfl) rfl
    (by decide) (by decide)

/-- C9: the freeform final save transform always produces a goal whose
milestones are all incomplete, whose metrics all have an empty history and
a current value of 0 (false for a boolean metric), whose reflections list
is empty, and whose milestones, metrics and routines carry identifiers
drawn from the fresh-id supply at successive positions (milestones first,
then metrics, then routines) — independently of the completion flags,
current values and histories accumulated in the partial goal. -/
theorem freeform_save_resets_progress (gd : PartialGoal) (ids : Nat → String) :
    (handleSaveGoal gd ids).reflections = [] ∧
    (handleSaveGoal gd ids).milestones.length = gd.milestones.length ∧
    (∀ i (h : i < gd.milestones.length)
        (h2 : i < (handleSaveGoal gd ids).milestones.length),
      ((handleSaveGoal gd ids).milestones.get ⟨i, h2⟩).completed = false ∧
      ((handleSaveGoal gd ids).milestones.get ⟨i, h2⟩).id = ids i) ∧
    (handleSaveGoal gd ids).metrics.length = gd.metrics.length ∧
    (∀ i (h : i < gd.metrics.length)
        (h2 : i < (handleSaveGoal gd ids).metrics.length),
      ((handleSaveGoal gd ids).metrics.get ⟨i, h2⟩).history = [] ∧
      ((handleSaveGoal gd ids).metrics.get ⟨i, h2⟩).current =
        (if (gd.metrics.get ⟨i, h⟩).type = .boolean then .bool false else .num 0) ∧
      ((handleSaveGoal gd ids).metrics.get ⟨i, h2⟩).id =
        ids (gd.milestones.length + i)) ∧
    (handleSaveGoal gd ids).routines.length = gd.routines.length ∧
    (∀ i (h : i < gd.routines.length)
        (h2 : i < (handleSaveGoal gd ids).routines.length),
      ((handleSaveGoal gd ids).routines.get ⟨i, h2⟩).id =
        ids (gd.milestones.length + gd.metrics.length + i)) := by
  refine ⟨rfl, mapWithIds_length _ _ _, fun i h h2 => ?_,
    mapWithIds_length _ _ _, fun i h h2 => ?_,
    mapWithIds_length _ _ _, fun i h h2 => ?_⟩
  · have e : (handleSaveGoal gd ids).milestones.get ⟨i, h2⟩ =
        saveMilestone (ids (0 + i)) (gd.milestones.get ⟨i, h⟩) :=
      mapWithIds_get (fun k m => saveMilestone (ids k) m) 0 gd.milestones i h h2
    refine ⟨by rw [e]; rfl, ?_⟩
    rw [e]
    show ids (0 + i) = ids i
    rw [Nat.zero_add]
  · have e : (handleSaveGoal gd ids).metrics.get ⟨i, h2⟩ =
        saveMetric (ids (gd.milestones.length + i)) (gd.metrics.get ⟨i, h⟩) :=
      mapWithIds_get (fun k m => saveMetric (ids k) m)
        gd.milestones.length gd.metrics i h h2
    exact ⟨by rw [e]; rfl, by rw [e]; rfl, by rw [e]; rfl⟩
  · have e : (handleSaveGoal gd ids).routines.get ⟨i, h2⟩ =
        saveRoutine (ids (gd.milestones.length + gd.metrics.length + i))
          (gd.routines.get ⟨i, h⟩) :=
      mapWithIds_get (fun k r => saveRoutine (ids k) r)
        (gd.milestones.length + gd.metrics.length) gd.routines i h h2
    rw [e]
    rfl

/-- A milestone already marked completed in the accumulated partial goal. -/
def sampleDoneMilestone : Milestone :=
  { id := "old-m", title := "Already done", description := some "d",
    targetDate := 1705000000000, completed := true,
    completedDate := some 1700000000000, frequency := some "once" }

/-- A boolean metric with a non-trivial current value and history. -/
def sampleBoolMetric : Metric :=
  { id := "old-b", name := "Meditated", type := .boolean,
    target := .bool true, current := .bool true, unit := none,
    frequency := some "daily",
    history := [{ date := 1, value := .bool true }] }

/-- An accumulated routine. -/
def sampleRoutine : Routine :=
  { id := "old-r", name := "Morning routine", description := none,
    frequency := some "daily", steps := ["Wake", "Stretch"],
    lastCompleted := none, nextDue := none }

/-- An accumulated partial goal whose collections carry completion flags,
current values and history that the save transform must discard. -/
def samplePartialWithProgress : PartialGoal :=
  { title := some "Run 5k", description := some "x",
    domain := some "health", status := .active,
    targetDate := some 1710000000000,
    milestones := [sampleDoneMilestone], metrics := [sampleBoolMetric],
    weeklyActions := [], dailyHabits := [], routines := [sampleRoutine],
    resources := [], obstacles := [], successCriteria := [],
    reflections := [] }

/-- C9 witness: saving the sample partial goal clears the completion flag
of its (previously completed) milestone and the history of its metric. -/
theorem freeform_save_resets_progress_witness :
    (handleSaveGoal samplePartialWithProgress (fun _ => "id")).reflections = [] ∧
    (∃ h2 : 0 < (handleSaveGoal samplePartialWithProgress (fun _ => "id")).milestones.length,
      ((handleSaveGoal samplePartialWithProgress (fun _ => "id")).milestones.get ⟨0, h2⟩).completed = false) ∧
    (∃ h2 : 0 < (handleSaveGoal samplePartialWithProgress (fun _ => "id")).metrics.length,
      ((handleSaveGoal samplePartialWithProgress (fun _ => "id")).metrics.get ⟨0, h2⟩).history = []) := by
  have h := freeform_save_resets_progress samplePartialWithProgress (fun _ => "id")
  have hm : 0 < (handleSaveGoal samplePartialWithProgress (fun _ => "id")).milestones.length := by
    rw [h.2.1]; decide
  have hk : 0 < (handleSaveGoal samplePartialWithProgress (fun _ => "id")).metrics.length := by
    rw [h.2.2.2.1]; decide
  exact ⟨h.1, ⟨hm, (h.2.2.1 0 (by decide) hm).1⟩,
    ⟨hk, (h.2.2.2.2.1 0 (by decide) hk).1⟩⟩

theorem toggleMilestoneList_no_match (ms : List Milestone)
    (milestoneId : String) (c : Bool) (now : Nat)
    (hall : ∀ m ∈ ms, m.id ≠ milestoneId) :
    toggleMilestoneList ms milestoneId c now = ms := by
  induction ms with
  | nil => rfl
  | cons a as ih =>
    have ha : ¬a.id = milestoneId := hall a (List.mem_cons_self a as)
    have has : ∀ m ∈ as, m.id ≠ milestoneId :=
      fun m hm => hall m (List.mem_cons_of_mem a hm)
    have tail := ih has
    simp only [toggleMilestoneList, List.map_cons] at tail ⊢
    rw [if_neg ha, tail]

/-- C10: the milestone toggle rewrites only the milestone whose id matches
(its completed flag and completedDate), leaves every other milestone
unchanged at its position, preserves the length and order of the milestone
list, leaves all goal fields other than milestones and updatedAt unchanged,
and leaves the milestone list unchanged when no milestone has the given
id. -/
theorem toggle_milestone_frame (g : Goal) (milestoneId : String) (c : Bool)
    (now : Nat) :
    (applyToggleMilestone g milestoneId c now).milestones.length =
      g.milestones.length ∧
    (∀ i (h : i < g.milestones.length)
        (h2 : i < (applyToggleMilestone g milestoneId c now).milestones.length),
      ((g.milestones.get ⟨i, h⟩).id = milestoneId →
        (applyToggleMilestone g milestoneId c now).milestones.get ⟨i, h2⟩ =
          { g.milestones.get ⟨i, h⟩ with
              completed := c
              completedDate := if c then some now else none }) ∧
      ((g.milestones.get ⟨i, h⟩).id ≠ milestoneId →
        (applyToggleMilestone g milestoneId c now).milestones.get ⟨i, h2⟩ =
          g.milestones.get ⟨i, h⟩)) ∧
    ((∀ m ∈ g.milestones, m.id ≠ milestoneId) →
      (applyToggleMilestone g milestoneId c now).milestones = g.milestones) ∧
    (applyToggleMilestone g milestoneId c now).updatedAt = now ∧
    (applyToggleMilestone g milestoneId c now).id = g.id ∧
    (applyToggleMilestone g milestoneId c now).userId = g.userId ∧
    (applyToggleMilestone g milestoneId c now).title = g.title ∧
    (applyToggleMilestone g milestoneId c now).description = g.description ∧
    (applyToggleMilestone g milestoneId c now).domain = g.domain ∧
    (applyToggleMilestone g milestoneId c now).status = g.status ∧
    (applyToggleMilestone g milestoneId c now).targetDate = g.targetDate ∧
    (applyToggleMilestone g milestoneId c now).createdAt = g.createdAt ∧
    (applyToggleMilestone g milestoneId c now).metrics = g.metrics ∧
    (applyToggleMilestone g milestoneId c now).weeklyActions = g.weeklyActions ∧
    (applyToggleMilestone g milestoneId c now).dailyHabits = g.dailyHabits ∧
    (applyToggleMilestone g milestoneId c now).routines = g.routines ∧
    (applyToggleMilestone g milestoneId c now).resources = g.resources ∧
    (applyToggleMilestone g milestoneId c now).obstacles = g.obstacles ∧
    (applyToggleMilestone g milestoneId c now).successCriteria = g.successCriteria ∧
    (applyToggleMilestone g milestoneId c now).reflections = g.reflections := by
  refine ⟨?_, fun i h h2 => ⟨fun hid => ?_, fun hid => ?_⟩, fun hall => ?_,
    rfl, rfl, rfl, rfl, rfl, rfl, rfl, rfl, rfl, rfl, rfl, rfl, rfl, rfl,
    rfl, rfl, rfl⟩
  · simp [applyToggleMilestone, toggleMilestoneList]
  · show (toggleMilestoneList g.milestones milestoneId c now).get ⟨i, h2⟩ = _
    simp only [List.get_eq_getElem] at hid ⊢
    simp [toggleMilestoneList, List.getElem_map, hid]
  · show (toggleMilestoneList g.milestones milestoneId c now).get ⟨i, h2⟩ = _
    simp only [List.get_eq_getElem] at hid ⊢
    simp [toggleMilestoneList, List.getElem_map, hid]
  · show toggleMilestoneList g.milestones milestoneId c now = g.milestones
    exact toggleMilestoneList_no_match g.milestones milestoneId c now hall

/-- C10 witness: toggling an id absent from the sample goal leaves its
milestone list unchanged, leaves its title unchanged, and stamps
updatedAt. -/
theorem toggle_milestone_frame_witness :
    (applyToggleMilestone sampleGoal "nope" true 7).milestones = sampleGoal.milestones ∧
    (applyToggleMilestone sampleGoal "nope" true 7).title = sampleGoal.title ∧
    (applyToggleMilestone sampleGoal "nope" true 7).updatedAt = 7 := by
  have h := toggle_milestone_frame sampleGoal "nope" true 7
  exact ⟨h.2.2.1 (by decide), h.2.2.2.2.2.2.1, h.2.2.2.1⟩

end GoalsV1
